import Mathlib

/-!
# Shallow embedding of the Marketing-AI client orchestration core

This file embeds the client-side orchestration core of the Marketing-AI
frontend (a React/TypeScript application) and settles the frozen claims
about it.

Embedded source files:
* `src/frontend/src/services/api.ts` — the API gateway client (axios).
* `src/frontend/src/pages/Forecast.tsx` — the Forecast workflow controller.
* `src/frontend/src/pages/ImageGenerator.tsx` — the Image workflow controller.
* `src/frontend/src/pages/SloganGenerator.tsx` — the Slogan workflow controller.
* `src/frontend/src/pages/YouTubeQA.tsx` — the Video-QA workflow controller.
* `src/frontend/src/components/ui/file-upload.tsx` — the file-upload widget.
* `AppContext.tsx` — the shared result store (`forecastResults`, `isLoading`).

Each asynchronous event handler is split at its `await` point into an
explicit `...Start` function (the synchronous part up to the network
dispatch) and a `...Finish` function (the continuation that runs when the
network call settles).  The `AxiosOutcome` type records whether the awaited
promise resolved with data (`ok`) or rejected (`thrown`), matching axios
semantics: the promise rejects on a network fault or on any non-2xx HTTP
status, and resolves with the parsed body otherwise.

TypeScript `number` fields that claims never compute with are carried as
`Nat`/`Rat`; JavaScript number-to-string formatting is abstracted by
`ratToString` (no claim depends on its output).  JavaScript string
truthiness (`if (s)`) is the non-emptiness test; `!s.trim()` is the
all-whitespace test `trimEmpty`.
-/

namespace MarketingAI

/-! ## Character-list matching machinery

`matchLit p s` matches the literal character list `p` against the front of
`s`, returning the remainder on success.  It is the building block for the
embedding of the YouTube-URL regular expression
`/^(https?:\/\/)?(www\.)?(youtube\.com\/watch\?v=|youtu\.be\/)[\w-]+/`
from `YouTubeQA.tsx`. -/

def matchLit : List Char → List Char → Option (List Char)
  | [], s => some s
  | _ :: _, [] => none
  | a :: p, b :: s => if b = a then matchLit p s else none

/-- Strip the literal `p` from the front of `s` if it is there, else leave
`s` unchanged (the behaviour of an optional literal group in the regex). -/
def optLit (p s : List Char) : List Char :=
  match matchLit p s with
  | some r => r
  | none => s

def httpL : List Char := ['h','t','t','p',':','/','/']

def httpsL : List Char := ['h','t','t','p','s',':','/','/']

def wwwL : List Char := ['w','w','w','.']

def watchL : List Char := ['y','o','u','t','u','b','e','.','c','o','m','/','w','a','t','c','h','?','v','=']

def beL : List Char := ['y','o','u','t','u','.','b','e','/']

/-- JavaScript word character (`\w`) or hyphen, the character class `[\w-]`
of the YouTube-URL regex. -/
def isWordOrHyphen (c : Char) : Bool :=
  c.isAlpha || c.isDigit || c == '_' || c == '-'

def headIsWord : List Char → Bool
  | [] => false
  | c :: _ => isWordOrHyphen c

/-- Strip an optional URL scheme, the `(https?:\/\/)?` group: at most one of
`https://` or `http://` is removed. -/
def stripScheme (s : List Char) : List Char :=
  match matchLit httpsL s with
  | some r => r
  | none => optLit httpL s

/-- After scheme and `www.` stripping: the host alternation
`(youtube\.com\/watch\?v=|youtu\.be\/)` followed by at least one `[\w-]`
character (the regex is unanchored at the right, so one such character
suffices). -/
def hostTest (u : List Char) : Bool :=
  match matchLit watchL u with
  | some r => headIsWord r
  | none =>
    match matchLit beL u with
    | some r => headIsWord r
    | none => false

/-- The `youtubeRegex.test(youtubeUrl)` check of `YouTubeQA.tsx`, line 33:
`/^(https?:\/\/)?(www\.)?(youtube\.com\/watch\?v=|youtu\.be\/)[\w-]+/`. -/
def youtubeRegexTest (s : String) : Bool :=
  hostTest (optLit wwwL (stripScheme s.data))

/-- Models `!s.trim()` in JavaScript: the string trims to empty iff every
character is whitespace.  (JS trims a slightly larger whitespace class than
`Char.isWhitespace`; no claim depends on exotic whitespace.) -/
def trimEmpty (s : String) : Bool := s.data.all (·.isWhitespace)

/-! ## Data model (from `AppContext.tsx` and `YouTubeQA.tsx`) -/

/-- `campaign_details` of the `ForecastResults` interface in
`AppContext.tsx`. -/
structure CampaignDetails where
  type : String
  offer : String
  target : String
  discount : Rat
  budget : Rat
  target_size : Nat
deriving DecidableEq

/-- `report_links` of the `ForecastResults` interface. -/
structure ReportLinks where
  html : String
  pdf : String
deriving DecidableEq

/-- The `ForecastResults` interface of `AppContext.tsx` — the spec's
`ForecastResult` entity held by the Shared Result Store. -/
structure ForecastResults where
  segment_count : Nat
  recommended_campaign_type : String
  recommended_offer : String
  success_probability : Rat
  privacy_compliance : Bool
  campaign_details : CampaignDetails
  report_links : ReportLinks
deriving DecidableEq

/-- The shared application context of `AppContext.tsx`: the stored forecast
result (`forecastResults`, the Shared Result Store) and the single global
busy flag (`isLoading`). -/
structure AppState where
  forecastResults : Option ForecastResults
  isLoading : Bool
deriving DecidableEq

/-- The `VideoInfo` interface of `YouTubeQA.tsx` — the spec's
`VideoSession`. -/
structure VideoInfo where
  video_id : String
  url : String
  chunk_count : Nat
  title : Option String
deriving DecidableEq

/-! ## API gateway client (`api.ts` with axios semantics)

`api.ts` creates a plain axios instance (no `validateStatus` override, no
interceptors) and each of the five exported operations is
`const r = await api.post(...); return r.data;` with no `try`/`catch`.
Axios resolves the promise with the parsed body for status 200–299 and
rejects it for a network fault or any other status; the operations
propagate that rejection unchanged to their callers. -/

/-- An HTTP response that reached the client: status code and parsed
body. -/
structure HttpResponse (β : Type) where
  status : Nat
  body : β
deriving DecidableEq

/-- What the transport produced for one request: a connectivity fault, or a
response. -/
inductive TransportResult (β : Type) where
  | fault : TransportResult β
  | response : HttpResponse β → TransportResult β
deriving DecidableEq

/-- How an awaited axios call settles at the caller: resolved with data, or
rejected (an exception crosses the operation's public boundary). -/
inductive AxiosOutcome (β : Type) where
  | ok : β → AxiosOutcome β
  | thrown : AxiosOutcome β
deriving DecidableEq

/-- Axios's default `validateStatus`: `status >= 200 && status < 300`. -/
def validStatus (n : Nat) : Bool := decide (200 ≤ n ∧ n < 300)

/-- `api.post` under axios semantics: reject on transport fault or invalid
status, resolve with the body otherwise. -/
def axiosPost {β : Type} (t : TransportResult β) : AxiosOutcome β :=
  match t with
  | .fault => .thrown
  | .response r => if validStatus r.status then .ok r.body else .thrown

/-- Parsed body of a `POST /forecast` response as inspected by
`Forecast.tsx`: the `status` field and the `results` field, each possibly
absent. -/
structure ForecastBody where
  status : Option String
  results : Option ForecastResults
deriving DecidableEq

/-- Parsed body of a `POST /img` response as inspected by
`ImageGenerator.tsx`. -/
structure ImageBody where
  image_url : Option String
deriving DecidableEq

/-- Parsed body of a `POST /slogan` response as inspected by
`SloganGenerator.tsx` (a present field is a JavaScript array, so the
`Array.isArray` check of the page holds exactly when the field is
present). -/
structure SloganBody where
  slogans : Option (List String)
deriving DecidableEq

/-- Parsed body of a `POST /rag/process` response as inspected by
`YouTubeQA.tsx`. -/
structure ProcessBody where
  video_info : Option VideoInfo
deriving DecidableEq

/-- Parsed body of a `POST /rag/query` response as inspected by
`YouTubeQA.tsx`. -/
structure QueryBody where
  answer : Option String
deriving DecidableEq

/-- `runForecast` of `api.ts`: one `api.post('/forecast', ...)` round trip,
returning `response.data`, no catch. -/
def runForecast (t : TransportResult ForecastBody) : AxiosOutcome ForecastBody :=
  axiosPost t

/-- `generateImage` of `api.ts`: one `api.post('/img', data)` round trip,
returning `response.data`, no catch. -/
def generateImage (t : TransportResult ImageBody) : AxiosOutcome ImageBody :=
  axiosPost t

/-- `generateSlogan` of `api.ts`: one `api.post('/slogan', data)` round
trip, returning `response.data`, no catch. -/
def generateSlogan (t : TransportResult SloganBody) : AxiosOutcome SloganBody :=
  axiosPost t

/-- `processVideo` of `api.ts`: one `api.post('/rag/process', data)` round
trip, returning `response.data`, no catch. -/
def processVideo (t : TransportResult ProcessBody) : AxiosOutcome ProcessBody :=
  axiosPost t

/-- `queryVideo` of `api.ts`: one `api.post('/rag/query', data)` round
trip, returning `response.data`, no catch. -/
def queryVideo (t : TransportResult QueryBody) : AxiosOutcome QueryBody :=
  axiosPost t

/-! ## File-upload widget (`components/ui/file-upload.tsx`) -/

/-- A candidate upload as far as the widget inspects it: name and size in
bytes (`File.name`, `File.size`). -/
structure CandidateFile where
  name : String
  size : Nat
deriving DecidableEq

/-- Result of `handleFileSelect` in `file-upload.tsx`: either the error
string is set and the file goes no further, or the file is recorded and
passed to the `onFileSelect` callback. -/
inductive SelectOutcome where
  | rejected (error : String)
  | accepted (file : CandidateFile)
deriving DecidableEq

/-- `handleFileSelect` of `file-upload.tsx` (lines 29–40): the only
validation performed is the size check `file.size > maxSize * 1024 * 1024`;
there is no extension check on any path. -/
def handleFileSelect (maxSize : Nat) (file : CandidateFile) : SelectOutcome :=
  if file.size > maxSize * 1024 * 1024 then
    .rejected ("File size must be less than " ++ toString maxSize ++ "MB")
  else
    .accepted file

/-- `handleDrop` of `file-upload.tsx` (lines 42–50): the first dropped file
(if any) is fed straight to `handleFileSelect`; the `accept` attribute of
the hidden input plays no part here. -/
def handleDrop (maxSize : Nat) (files : List CandidateFile) : Option SelectOutcome :=
  match files with
  | [] => none
  | f :: _ => some (handleFileSelect maxSize f)

/-- Claim-side helper (not in the source, which has no extension logic):
the extension of a file name, i.e. `"."` plus everything after the last
dot, or `""` when the name has no dot.  Used only to state C9. -/
def extOf (name : String) : String :=
  if name.data.contains '.' then
    String.mk ('.' :: (name.data.reverse.takeWhile (fun c => c != '.')).reverse)
  else ""

/-! ## Forecast workflow controller (`pages/Forecast.tsx`) -/

/-- The two file slots of the Forecast page (`customersFile`,
`campaignHistoryFile` local state). -/
structure ForecastPageState where
  customersFile : Option CandidateFile
  campaignHistoryFile : Option CandidateFile
deriving DecidableEq

inductive UploadKind where
  | customers
  | campaign
deriving DecidableEq

/-- `handleFileUpload` of `Forecast.tsx` (lines 17–26): takes
`e.target.files?.[0]` and stores it in the matching slot.  It performs no
validation whatsoever — in particular no size check. -/
def handleFileUpload (file : Option CandidateFile) (kind : UploadKind)
    (st : ForecastPageState) : ForecastPageState :=
  match file with
  | none => st
  | some f =>
    match kind with
    | .customers => { st with customersFile := some f }
    | .campaign => { st with campaignHistoryFile := some f }

/-- Synchronous prefix of `handleRunForecast`: either blocked ("Please
upload both CSV files", no network call), or dispatched with
`isLoading := true` and the two files as the request payload. -/
inductive ForecastStart where
  | blocked
  | dispatch (app : AppState) (customers_file campaign_history_file : CandidateFile)
deriving DecidableEq

/-- `handleRunForecast` of `Forecast.tsx` (lines 28–34), up to the `await`:
guard on both files being present, then `setIsLoading(true)` and dispatch
`runForecast`. -/
def handleRunForecastStart (st : ForecastPageState) (app : AppState) : ForecastStart :=
  match st.customersFile, st.campaignHistoryFile with
  | some c, some h => .dispatch { app with isLoading := true } c h
  | _, _ => .blocked

/-- The success test of `Forecast.tsx` line 41:
`response.status === "success" && response.results` (the `results` object
is truthy iff present). -/
def isForecastSuccess (b : ForecastBody) : Bool :=
  b.status == some "success" && b.results.isSome

/-- The forecast payload a settled call commits, if any: `response.results`
when the call resolved and the success test passed, nothing otherwise. -/
def forecastSuccessResults : AxiosOutcome ForecastBody → Option ForecastResults
  | .ok b => if isForecastSuccess b then b.results else none
  | .thrown => none

/-- `handleRunForecast` of `Forecast.tsx` (lines 35–52), from the `await`
on: on a resolved successful response, `setForecastResults(response.results)`;
on any other resolved response or a rejection, the store is not written;
the `finally` block always runs `setIsLoading(false)`. -/
def handleRunForecastFinish (out : AxiosOutcome ForecastBody) (app : AppState) : AppState :=
  match out with
  | .ok b =>
    if isForecastSuccess b then { forecastResults := b.results, isLoading := false }
    else { app with isLoading := false }
  | .thrown => { app with isLoading := false }

/-- Settle a sequence of in-flight forecast calls against the shared state,
in arrival order (the handler has no request token, so each completion is
applied as it arrives). -/
def applyForecastFinishes (app : AppState) : List (AxiosOutcome ForecastBody) → AppState
  | [] => app
  | o :: rest => applyForecastFinishes (handleRunForecastFinish o app) rest

/-- The store content predicted by arrival order: the payload of the last
successful settlement, or the initial content if none succeeded. -/
def lastArrivalWins (init : Option ForecastResults) :
    List (AxiosOutcome ForecastBody) → Option ForecastResults
  | [] => init
  | o :: rest =>
    lastArrivalWins
      (match forecastSuccessResults o with
       | some r => some r
       | none => init) rest

/-! ## Image and Slogan workflow controllers
(`pages/ImageGenerator.tsx`, `pages/SloganGenerator.tsx`) -/

/-- JavaScript number-to-string formatting, abstracted (no claim inspects
its output). -/
def ratToString (q : Rat) : String := toString q

/-- The template literal of `generatePromptFromForecast` in
`ImageGenerator.tsx` (lines 17–24). -/
def generatePromptFromForecast (fr : ForecastResults) : String :=
  "Create a marketing image for a " ++ fr.recommended_campaign_type ++
  " campaign with " ++ fr.recommended_offer ++
  ". Target audience: " ++ fr.campaign_details.target ++
  ". Professional, modern design with engaging visuals."

/-- The guarded action of `generatePromptFromForecast`: fills the prompt
field from a stored result, or reports a precondition failure when the
store is empty. -/
def generatePromptAction (stored : Option ForecastResults) : Option String :=
  stored.map generatePromptFromForecast

/-- The template literal of `generateContextFromForecast` in
`SloganGenerator.tsx` (lines 17–24). -/
def generateContextFromForecast (fr : ForecastResults) : String :=
  "Campaign Type: " ++ fr.recommended_campaign_type ++
  "\nOffer: " ++ fr.recommended_offer ++
  "\nTarget Audience: " ++ fr.campaign_details.target ++
  "\nDiscount: " ++ ratToString fr.campaign_details.discount ++
  "%\nBudget: $" ++ ratToString fr.campaign_details.budget

/-- The guarded action of `generateContextFromForecast`. -/
def generateContextAction (stored : Option ForecastResults) : Option String :=
  stored.map generateContextFromForecast

/-- `handleGenerateImage` of `ImageGenerator.tsx`, up to the `await`: guard
`!prompt.trim()`, then `setIsLoading(true)` and dispatch
`generateImage({ prompt })`. -/
def handleGenerateImageStart (prompt : String) (app : AppState) :
    Option (AppState × String) :=
  if trimEmpty prompt then none
  else some ({ app with isLoading := true }, prompt)

/-- `handleGenerateImage`, from the `await` on: `setGeneratedImage` on a
truthy `image_url`, nothing otherwise; `finally` clears the global flag. -/
def handleGenerateImageFinish (out : AxiosOutcome ImageBody) (app : AppState)
    (generatedImage : Option String) : AppState × Option String :=
  match out with
  | .ok b =>
    match b.image_url with
    | some u =>
      if u.isEmpty then ({ app with isLoading := false }, generatedImage)
      else ({ app with isLoading := false }, some u)
    | none => ({ app with isLoading := false }, generatedImage)
  | .thrown => ({ app with isLoading := false }, generatedImage)

/-- `handleGenerateSlogans` of `SloganGenerator.tsx`, up to the `await`. -/
def handleGenerateSlogansStart (context : String) (app : AppState) :
    Option (AppState × String) :=
  if trimEmpty context then none
  else some ({ app with isLoading := true }, context)

/-- `handleGenerateSlogans`, from the `await` on: `setSlogans` when the
`slogans` field is present (a present array is truthy and passes
`Array.isArray`), nothing otherwise; `finally` clears the global flag. -/
def handleGenerateSlogansFinish (out : AxiosOutcome SloganBody) (app : AppState)
    (slogans : List String) : AppState × List String :=
  match out with
  | .ok b =>
    match b.slogans with
    | some ls => ({ app with isLoading := false }, ls)
    | none => ({ app with isLoading := false }, slogans)
  | .thrown => ({ app with isLoading := false }, slogans)

/-! ## Video-QA workflow controller (`pages/YouTubeQA.tsx`)

`YouTubeQA.tsx` does not import `useAppContext`; its busy indicators are
the page-local `isProcessing` and `isQuerying` flags.  The handlers below
therefore take the shared `AppState` as an explicit argument and pass it
through untouched, making that fact visible in the embedding. -/

/-- The local state of the Video-QA page. -/
structure QAPageState where
  youtubeUrl : String
  question : String
  videoInfo : Option VideoInfo
  answer : String
  isProcessing : Bool
  isQuerying : Bool
deriving DecidableEq

/-- Synchronous prefix of `handleProcessVideo`: blocked on a blank URL
("Please enter a YouTube URL"), blocked on a regex mismatch ("Please enter
a valid YouTube URL"), or dispatched with `isProcessing := true` and the
URL as the `youtube_url` payload. -/
inductive QAProcessStart where
  | blockedEmptyUrl
  | blockedInvalidUrl
  | dispatch (app : AppState) (page : QAPageState) (youtube_url : String)
deriving DecidableEq

/-- `handleProcessVideo` of `YouTubeQA.tsx` (lines 26–38), up to the
`await`: `!youtubeUrl.trim()` guard, then the YouTube-URL regex test, then
`setIsProcessing(true)` and dispatch `processVideo({ youtube_url })`.  The
shared `AppState` is untouched. -/
def handleProcessVideoStart (app : AppState) (page : QAPageState) : QAProcessStart :=
  if trimEmpty page.youtubeUrl then .blockedEmptyUrl
  else if youtubeRegexTest page.youtubeUrl then
    .dispatch app { page with isProcessing := true } page.youtubeUrl
  else .blockedInvalidUrl

/-- The session a settled ingestion commits, if any: `response.video_info`
when the call resolved with that field present, nothing otherwise. -/
def ingestSuccess : AxiosOutcome ProcessBody → Option VideoInfo
  | .ok b => b.video_info
  | .thrown => none

/-- `handleProcessVideo` (lines 39–54), from the `await` on: on a resolved
response with a truthy `video_info`, `setVideoInfo(response.video_info)`;
otherwise the session is not written; `finally` runs
`setIsProcessing(false)`. -/
def handleProcessVideoFinish (out : AxiosOutcome ProcessBody) (page : QAPageState) :
    QAPageState :=
  match out with
  | .ok b =>
    match b.video_info with
    | some vi => { page with videoInfo := some vi, isProcessing := false }
    | none => { page with isProcessing := false }
  | .thrown => { page with isProcessing := false }

/-- Synchronous prefix of `handleAskQuestion`: blocked on a blank question
("Please enter a question"), blocked with no processed video ("Please
process a video first" — the spec's `MissingPrecondition`), or dispatched
with `isQuerying := true` and the question as payload. -/
inductive QAQueryStart where
  | blockedEmptyQuestion
  | blockedMissingPrecondition
  | dispatch (app : AppState) (page : QAPageState) (question : String)
deriving DecidableEq

/-- `handleAskQuestion` of `YouTubeQA.tsx` (lines 57–70), up to the
`await`: `!question.trim()` guard, then the `!videoInfo` precondition
guard, then `setIsQuerying(true)` and dispatch `queryVideo({ question })`.
The shared `AppState` is untouched. -/
def handleAskQuestionStart (app : AppState) (page : QAPageState) : QAQueryStart :=
  if trimEmpty page.question then .blockedEmptyQuestion
  else
    match page.videoInfo with
    | none => .blockedMissingPrecondition
    | some _ => .dispatch app { page with isQuerying := true } page.question

/-- `handleAskQuestion` (lines 70–84), from the `await` on: `setAnswer` on
a truthy `answer`, nothing otherwise; `finally` runs
`setIsQuerying(false)`. -/
def handleAskQuestionFinish (out : AxiosOutcome QueryBody) (page : QAPageState) :
    QAPageState :=
  match out with
  | .ok b =>
    match b.answer with
    | some a =>
      if a.isEmpty then { page with isQuerying := false }
      else { page with answer := a, isQuerying := false }
    | none => { page with isQuerying := false }
  | .thrown => { page with isQuerying := false }

/-! ## Claim-side predicates -/

/-- The decomposition the code's regex actually recognizes: an optional
scheme, an optional `www.`, one of the two hosts, and at least one
word/hyphen character (the remainder is unconstrained because the regex is
unanchored on the right). -/
def codeVideoLinkShape (s : String) : Prop :=
  ∃ sch w h c rest,
    (sch = ([] : List Char) ∨ sch = httpL ∨ sch = httpsL) ∧
    (w = ([] : List Char) ∨ w = wwwL) ∧
    (h = watchL ∨ h = beL) ∧
    isWordOrHyphen c = true ∧
    s.data = sch ++ (w ++ (h ++ c :: rest))

/-- Modelled from the spec: the recognized video-link shapes
`https?://(www.)?youtube.com/watch?v=<id>` and
`https?://(www.)?youtu.be/<id>` with the scheme required and `<id>` — the
entire remainder of the string — made of one-or-more word/hyphen
characters. -/
def specVideoLinkShape (s : String) : Bool :=
  match
    (match matchLit httpsL s.data with
     | some r => some r
     | none => matchLit httpL s.data) with
  | none => false
  | some r =>
    match matchLit watchL (optLit wwwL r) with
    | some rest => !rest.isEmpty && rest.all isWordOrHyphen
    | none =>
      match matchLit beL (optLit wwwL r) with
      | some rest => !rest.isEmpty && rest.all isWordOrHyphen
      | none => false

/-- `big` contains `seg` byte-for-byte as a contiguous segment. -/
def strContainsSeg (big seg : String) : Prop :=
  ∃ l r : List Char, big.data = l ++ (seg.data ++ r)

/-! ## Concrete sample values used by counterexamples and witnesses -/

def sampleDetails : CampaignDetails :=
  { type := "Discount", offer := "20% off", target := "High-Value Customers",
    discount := 20, budget := 5000, target_size := 1200 }

def sampleResults : ForecastResults :=
  { segment_count := 8, recommended_campaign_type := "Discount",
    recommended_offer := "20% off", success_probability := 76,
    privacy_compliance := true, campaign_details := sampleDetails,
    report_links := { html := "", pdf := "" } }

def resultsA : ForecastResults := { sampleResults with recommended_campaign_type := "A" }

def resultsB : ForecastResults := { sampleResults with recommended_campaign_type := "B" }

def bigCsv : CandidateFile := { name := "customers.csv", size := 10485761 }

def smallCsv : CandidateFile := { name := "campaign_history.csv", size := 3072 }

def exeFile : CandidateFile := { name := "malware.exe", size := 2048 }

def app0 : AppState := { forecastResults := none, isLoading := false }

def qaPage0 : QAPageState :=
  { youtubeUrl := "https://www.youtube.com/watch?v=abc123", question := "",
    videoInfo := none, answer := "", isProcessing := false, isQuerying := false }

def qaPageSchemeless : QAPageState :=
  { qaPage0 with youtubeUrl := "youtube.com/watch?v=abc123" }

def sampleVideoInfo : VideoInfo :=
  { video_id := "abc123", url := "https://www.youtube.com/watch?v=abc123",
    chunk_count := 42, title := none }

def qaPageWithSession : QAPageState :=
  { qaPage0 with videoInfo := some sampleVideoInfo, question := "What is this about?" }

def qaPageNoSession : QAPageState :=
  { qaPage0 with videoInfo := none, question := "What is this about?" }

/-! ## Helper lemmas: literal matching -/

theorem matchLit_some {p : List Char} : ∀ {s r : List Char}, matchLit p s = some r ↔ s = p ++ r := by
  induction p with
  | nil => intro s r; simp [matchLit]
  | cons a p ih =>
    intro s r
    cases s with
    | nil => simp [matchLit]
    | cons b t =>
      by_cases h : b = a
      · subst h; simp [matchLit, ih]
      · simp [matchLit, h]

theorem matchLit_of_append (p r : List Char) : matchLit p (p ++ r) = some r :=
  matchLit_some.mpr rfl

theorem mlit_https_http (x : List Char) : matchLit httpsL (httpL ++ x) = none := rfl

theorem mlit_https_www (x : List Char) : matchLit httpsL (wwwL ++ x) = none := rfl

theorem mlit_https_watch (x : List Char) : matchLit httpsL (watchL ++ x) = none := rfl

theorem mlit_https_be (x : List Char) : matchLit httpsL (beL ++ x) = none := rfl

theorem mlit_http_www (x : List Char) : matchLit httpL (wwwL ++ x) = none := rfl

theorem mlit_http_watch (x : List Char) : matchLit httpL (watchL ++ x) = none := rfl

theorem mlit_http_be (x : List Char) : matchLit httpL (beL ++ x) = none := rfl

theorem mlit_www_watch (x : List Char) : matchLit wwwL (watchL ++ x) = none := rfl

theorem mlit_www_be (x : List Char) : matchLit wwwL (beL ++ x) = none := rfl

theorem mlit_watch_be (x : List Char) : matchLit watchL (beL ++ x) = none := rfl

theorem mlit_be_watch (x : List Char) : matchLit beL (watchL ++ x) = none := rfl

/-- Every result of `stripScheme` accounts for the stripped characters. -/
theorem stripScheme_decomp (s : List Char) :
    s = httpsL ++ stripScheme s ∨ s = httpL ++ stripScheme s ∨ stripScheme s = s := by
  unfold stripScheme optLit
  cases h1 : matchLit httpsL s with
  | some r => exact Or.inl (matchLit_some.mp h1)
  | none =>
    cases h2 : matchLit httpL s with
    | some r => exact Or.inr (Or.inl (matchLit_some.mp h2))
    | none => exact Or.inr (Or.inr rfl)

/-- Every result of `optLit` accounts for the stripped characters. -/
theorem optLit_decomp (p s : List Char) : s = p ++ optLit p s ∨ optLit p s = s := by
  unfold optLit
  cases h : matchLit p s with
  | some r => exact Or.inl (matchLit_some.mp h)
  | none => exact Or.inr rfl

/-- `hostTest` holds exactly when the input is a host alternative followed
by a word/hyphen character. -/
theorem hostTest_iff (u : List Char) :
    hostTest u = true ↔
      ∃ h c rest, (h = watchL ∨ h = beL) ∧ isWordOrHyphen c = true ∧ u = h ++ c :: rest := by
  constructor
  · intro ht
    unfold hostTest at ht
    cases h1 : matchLit watchL u with
    | some r =>
      rw [h1] at ht
      cases r with
      | nil => simp [headIsWord] at ht
      | cons c rest =>
        exact ⟨watchL, c, rest, Or.inl rfl, ht, matchLit_some.mp h1⟩
    | none =>
      rw [h1] at ht
      cases h2 : matchLit beL u with
      | some r =>
        rw [h2] at ht
        cases r with
        | nil => simp [headIsWord] at ht
        | cons c rest =>
          exact ⟨beL, c, rest, Or.inr rfl, ht, matchLit_some.mp h2⟩
      | none => rw [h2] at ht; simp at ht
  · rintro ⟨h, c, rest, hh | hh, hc, hu⟩ <;> subst hh <;> subst hu <;> unfold hostTest
    · rw [matchLit_of_append]
      exact hc
    · rw [mlit_watch_be, matchLit_of_append]
      exact hc

/-- When the tail already starts with a host alternative (preceded by an
optional `www.`), neither scheme literal matches it. -/
theorem scheme_no_match (w h : List Char) (x : List Char)
    (hw : w = ([] : List Char) ∨ w = wwwL) (hh : h = watchL ∨ h = beL) :
    matchLit httpsL (w ++ (h ++ x)) = none ∧ matchLit httpL (w ++ (h ++ x)) = none := by
  rcases hw with hw | hw <;> subst hw
  · rcases hh with hh | hh <;> subst hh
    · exact ⟨mlit_https_watch x, mlit_http_watch x⟩
    · exact ⟨mlit_https_be x, mlit_http_be x⟩
  · exact ⟨mlit_https_www _, mlit_http_www _⟩

/-- `stripScheme` removes exactly the scheme the string starts with. -/
theorem stripScheme_exact (sch w h x : List Char)
    (hsch : sch = ([] : List Char) ∨ sch = httpL ∨ sch = httpsL)
    (hw : w = ([] : List Char) ∨ w = wwwL) (hh : h = watchL ∨ h = beL) :
    stripScheme (sch ++ (w ++ (h ++ x))) = w ++ (h ++ x) := by
  obtain ⟨hn1, hn2⟩ := scheme_no_match w h x hw hh
  rcases hsch with hsch | hsch | hsch <;> subst hsch
  · simp only [List.nil_append]
    unfold stripScheme optLit
    rw [hn1, hn2]
  · unfold stripScheme optLit
    rw [mlit_https_http, matchLit_of_append]
  · unfold stripScheme
    rw [matchLit_of_append]

/-- `optLit wwwL` removes exactly the `www.` the string starts with. -/
theorem optLit_www_exact (w h x : List Char)
    (hw : w = ([] : List Char) ∨ w = wwwL) (hh : h = watchL ∨ h = beL) :
    optLit wwwL (w ++ (h ++ x)) = h ++ x := by
  rcases hw with hw | hw <;> subst hw
  · simp only [List.nil_append]
    unfold optLit
    rcases hh with hh | hh <;> subst hh
    · rw [mlit_www_watch]
    · rw [mlit_www_be]
  · unfold optLit
    rw [matchLit_of_append]

/-- The embedded regex test recognizes exactly the decompositions of
`codeVideoLinkShape`. -/
theorem youtubeRegexTest_iff (s : String) :
    youtubeRegexTest s = true ↔ codeVideoLinkShape s := by
  constructor
  · intro ht
    unfold youtubeRegexTest at ht
    obtain ⟨h, c, rest, hh, hc, hu⟩ := (hostTest_iff _).mp ht
    rcases optLit_decomp wwwL (stripScheme s.data) with hw | hw
    · rcases stripScheme_decomp s.data with hs | hs | hs
      · exact ⟨httpsL, wwwL, h, c, rest, Or.inr (Or.inr rfl), Or.inr rfl, hh, hc, by
          rw [hs, hw, hu]⟩
      · exact ⟨httpL, wwwL, h, c, rest, Or.inr (Or.inl rfl), Or.inr rfl, hh, hc, by
          rw [hs, hw, hu]⟩
      · exact ⟨[], wwwL, h, c, rest, Or.inl rfl, Or.inr rfl, hh, hc, by
          rw [List.nil_append, ← hs, hw, hu]⟩
    · rcases stripScheme_decomp s.data with hs | hs | hs
      · exact ⟨httpsL, [], h, c, rest, Or.inr (Or.inr rfl), Or.inl rfl, hh, hc, by
          rw [List.nil_append, hs, ← hw, hu]⟩
      · exact ⟨httpL, [], h, c, rest, Or.inr (Or.inl rfl), Or.inl rfl, hh, hc, by
          rw [List.nil_append, hs, ← hw, hu]⟩
      · exact ⟨[], [], h, c, rest, Or.inl rfl, Or.inl rfl, hh, hc, by
          rw [List.nil_append, List.nil_append, ← hs, ← hw, hu]⟩
  · rintro ⟨sch, w, h, c, rest, hsch, hw, hh, hc, hs⟩
    unfold youtubeRegexTest
    rw [hs, stripScheme_exact sch w h (c :: rest) hsch hw hh,
      optLit_www_exact w h (c :: rest) hw hh]
    exact (hostTest_iff _).mpr ⟨h, c, rest, hh, hc, rfl⟩

/-! ## Helper lemmas: forecast settlement -/

/-- What one settled forecast call leaves in the store: its own successful
payload, or the previous content. -/
theorem finish_store (o : AxiosOutcome ForecastBody) (app : AppState) :
    (handleRunForecastFinish o app).forecastResults =
      match forecastSuccessResults o with
      | some r => some r
      | none => app.forecastResults := by
  cases o with
  | thrown => rfl
  | ok b =>
    cases h : isForecastSuccess b with
    | true =>
      cases hr : b.results with
      | some r => simp [handleRunForecastFinish, forecastSuccessResults, h, hr]
      | none => simp [isForecastSuccess, hr] at h
    | false => simp [handleRunForecastFinish, forecastSuccessResults, h]

/-! ## Claim C1 -/

/-- Claim C1, counterexample.  Two forecast runs overlap: run 1 is
re-submitted as run 2 while in flight.  Run 2's successful response
(payload `resultsB`) arrives first; run 1's stale successful response
(payload `resultsA`) arrives second.  `handleRunForecast` has no request
token, so the stale completion is applied as it arrives and the store ends
with the older payload `resultsA`, not the most recent submission's
`resultsB` — refuting last-submission-wins. -/
theorem forecast_staleOverwrite_counterexample :
    (applyForecastFinishes { forecastResults := none, isLoading := true }
        [AxiosOutcome.ok { status := some "success", results := some resultsB },
         AxiosOutcome.ok { status := some "success", results := some resultsA }]).forecastResults
      = some resultsA
    ∧ some resultsA ≠ some resultsB :=
  ⟨rfl, by decide⟩

/-- Claim C1, amended: the Forecast controller applies settlements in
*arrival* order with no staleness guard, so the store ends with the payload
of the last successful response to arrive (last-arrival-wins, not
last-submission-wins); if no settlement in the burst succeeds the store
keeps its prior content. -/
theorem forecast_store_lastArrivalWins (app : AppState)
    (outs : List (AxiosOutcome ForecastBody)) :
    (applyForecastFinishes app outs).forecastResults =
      lastArrivalWins app.forecastResults outs := by
  induction outs generalizing app with
  | nil => rfl
  | cons o rest ih =>
    show (applyForecastFinishes (handleRunForecastFinish o app) rest).forecastResults = _
    rw [ih, finish_store]
    rfl

/-! ## Claim C2 -/

/-- Claim C2, counterexample.  A backend-declared non-success arriving as
an HTTP 500 with a well-formed body (`{status:"error"}`) is not a
transport fault — the transport delivered a response — yet `runForecast`
rejects (throws across its public boundary) instead of returning a
discriminated failure outcome, because axios rejects every non-2xx status
and `api.ts` adds no catch and no result type. -/
theorem apiClient_throws_counterexample :
    runForecast (TransportResult.response
        { status := 500, body := { status := some "error", results := none } })
      = AxiosOutcome.thrown
    ∧ TransportResult.response
        { status := 500, body := ({ status := some "error", results := none } : ForecastBody) }
      ≠ TransportResult.fault :=
  ⟨rfl, fun h => nomatch h⟩

/-- Claim C2, amended: each of the five operations resolves with the raw
response body for every 2xx response — malformed payloads and body-level
failure markers do not throw, and the success/failure discrimination is
left to callers — and throws (rejects) for every transport fault and every
non-2xx HTTP status. -/
theorem apiClient_outcome_characterization :
    (∀ r : HttpResponse ForecastBody,
        runForecast (.response r) =
          (if validStatus r.status then AxiosOutcome.ok r.body else AxiosOutcome.thrown)) ∧
    runForecast TransportResult.fault = AxiosOutcome.thrown ∧
    (∀ r : HttpResponse ImageBody,
        generateImage (.response r) =
          (if validStatus r.status then AxiosOutcome.ok r.body else AxiosOutcome.thrown)) ∧
    generateImage TransportResult.fault = AxiosOutcome.thrown ∧
    (∀ r : HttpResponse SloganBody,
        generateSlogan (.response r) =
          (if validStatus r.status then AxiosOutcome.ok r.body else AxiosOutcome.thrown)) ∧
    generateSlogan TransportResult.fault = AxiosOutcome.thrown ∧
    (∀ r : HttpResponse ProcessBody,
        processVideo (.response r) =
          (if validStatus r.status then AxiosOutcome.ok r.body else AxiosOutcome.thrown)) ∧
    processVideo TransportResult.fault = AxiosOutcome.thrown ∧
    (∀ r : HttpResponse QueryBody,
        queryVideo (.response r) =
          (if validStatus r.status then AxiosOutcome.ok r.body else AxiosOutcome.thrown)) ∧
    queryVideo TransportResult.fault = AxiosOutcome.thrown :=
  ⟨fun _ => rfl, rfl, fun _ => rfl, rfl, fun _ => rfl, rfl, fun _ => rfl, rfl, fun _ => rfl, rfl⟩

/-! ## Claim C3 -/

/-- Claim C3, counterexample.  The Forecast page does not use the
`FileUpload` widget: its own `handleFileUpload` records
`e.target.files?.[0]` with no size check, and `handleRunForecast`
dispatches whatever is recorded.  A 10 MB + 1 byte file (over the
configured 10 MB maximum) is accepted into the page state and carried by
the dispatched forecast request. -/
theorem forecast_oversized_dispatch_counterexample :
    handleRunForecastStart
        (handleFileUpload (some smallCsv) UploadKind.campaign
          (handleFileUpload (some bigCsv) UploadKind.customers
            { customersFile := none, campaignHistoryFile := none }))
        app0
      = ForecastStart.dispatch { forecastResults := none, isLoading := true } bigCsv smallCsv
    ∧ bigCsv.size > 10 * 1024 * 1024 :=
  ⟨rfl, by decide⟩

/-- Claim C3, amended: the `FileUpload` widget's validation does reject
every file with `byteSize > maxBytes` (error `FileTooLarge`, `onFileSelect`
never invoked), but the Forecast page's own upload handler performs no size
validation, so forecast requests are not in fact prevented from carrying
oversized files. -/
theorem fileSize_validation_split :
    (∀ (maxSize : Nat) (f : CandidateFile), f.size > maxSize * 1024 * 1024 →
        handleFileSelect maxSize f =
          SelectOutcome.rejected ("File size must be less than " ++ toString maxSize ++ "MB")) ∧
    (∀ (f : CandidateFile) (st : ForecastPageState),
        (handleFileUpload (some f) UploadKind.customers st).customersFile = some f ∧
        (handleFileUpload (some f) UploadKind.campaign st).campaignHistoryFile = some f) := by
  refine ⟨fun m f h => ?_, fun f st => ⟨rfl, rfl⟩⟩
  unfold handleFileSelect
  rw [if_pos h]

/-- Witness for `fileSize_validation_split` at the concrete oversized
file. -/
theorem fileSize_validation_split_witness :
    handleFileSelect 10 bigCsv =
      SelectOutcome.rejected ("File size must be less than " ++ toString 10 ++ "MB") :=
  fileSize_validation_split.1 10 bigCsv (by decide)

/-! ## Claim C4 -/

/-- Claim C4, counterexample.  The Video-QA controller begins an ingestion
request (entering `InFlight`: its local `isProcessing` flag goes to `true`)
while the single global busy flag `isLoading` remains `false` — the page
never touches the shared context.  This refutes "every transition into
`InFlight` sets the single global busy flag to true" for the Video-QA
controller. -/
theorem videoQA_globalBusy_counterexample :
    handleProcessVideoStart app0 qaPage0
      = QAProcessStart.dispatch app0 { qaPage0 with isProcessing := true } qaPage0.youtubeUrl
    ∧ app0.isLoading = false :=
  ⟨rfl, rfl⟩

/-- Claim C4, amended: the Forecast, Image and Slogan controllers set the
single global busy flag on every entry into `InFlight` and clear it on
every exit (success, declared failure, or transport fault); the Video-QA
controller instead uses its page-local `isProcessing`/`isQuerying` flags
with the same set/clear discipline and leaves the global flag untouched. -/
theorem busyFlag_discipline :
    (∀ (c h : CandidateFile) (app : AppState),
        handleRunForecastStart { customersFile := some c, campaignHistoryFile := some h } app
          = ForecastStart.dispatch { app with isLoading := true } c h) ∧
    (∀ (out : AxiosOutcome ForecastBody) (app : AppState),
        (handleRunForecastFinish out app).isLoading = false) ∧
    (∀ (pr : String) (app : AppState), trimEmpty pr = false →
        handleGenerateImageStart pr app = some ({ app with isLoading := true }, pr)) ∧
    (∀ (out : AxiosOutcome ImageBody) (app : AppState) (img : Option String),
        (handleGenerateImageFinish out app img).1.isLoading = false) ∧
    (∀ (cx : String) (app : AppState), trimEmpty cx = false →
        handleGenerateSlogansStart cx app = some ({ app with isLoading := true }, cx)) ∧
    (∀ (out : AxiosOutcome SloganBody) (app : AppState) (sl : List String),
        (handleGenerateSlogansFinish out app sl).1.isLoading = false) ∧
    (∀ (app app2 : AppState) (page page2 : QAPageState) (u : String),
        handleProcessVideoStart app page = QAProcessStart.dispatch app2 page2 u →
          app2 = app ∧ page2.isProcessing = true) ∧
    (∀ (out : AxiosOutcome ProcessBody) (page : QAPageState),
        (handleProcessVideoFinish out page).isProcessing = false) ∧
    (∀ (app app2 : AppState) (page page2 : QAPageState) (q : String),
        handleAskQuestionStart app page = QAQueryStart.dispatch app2 page2 q →
          app2 = app ∧ page2.isQuerying = true) ∧
    (∀ (out : AxiosOutcome QueryBody) (page : QAPageState),
        (handleAskQuestionFinish out page).isQuerying = false) := by
  refine ⟨fun c h app => rfl, ?_, ?_, ?_, ?_, ?_, ?_, ?_, ?_, ?_⟩
  · intro out app
    cases out with
    | thrown => rfl
    | ok b => cases hb : isForecastSuccess b <;> simp [handleRunForecastFinish, hb]
  · intro pr app hpr
    simp [handleGenerateImageStart, hpr]
  · intro out app img
    cases out with
    | thrown => rfl
    | ok b =>
      cases hb : b.image_url with
      | none => simp [handleGenerateImageFinish, hb]
      | some u => simp [handleGenerateImageFinish, hb, apply_ite]
  · intro cx app hcx
    simp [handleGenerateSlogansStart, hcx]
  · intro out app sl
    cases out with
    | thrown => rfl
    | ok b => cases hb : b.slogans <;> simp [handleGenerateSlogansFinish, hb]
  · intro app app2 page page2 u hdisp
    unfold handleProcessVideoStart at hdisp
    by_cases h1 : trimEmpty page.youtubeUrl
    · rw [if_pos h1] at hdisp; cases hdisp
    · rw [if_neg h1] at hdisp
      by_cases h2 : youtubeRegexTest page.youtubeUrl
      · rw [if_pos h2] at hdisp
        injection hdisp with ha hp hu
        exact ⟨ha.symm, by rw [← hp]⟩
      · rw [if_neg h2] at hdisp; cases hdisp
  · intro out page
    cases out with
    | thrown => rfl
    | ok b => cases hb : b.video_info <;> simp [handleProcessVideoFinish, hb]
  · intro app app2 page page2 q hdisp
    unfold handleAskQuestionStart at hdisp
    by_cases h1 : trimEmpty page.question
    · rw [if_pos h1] at hdisp; cases hdisp
    · rw [if_neg h1] at hdisp
      cases hv : page.videoInfo with
      | none => rw [hv] at hdisp; cases hdisp
      | some vi =>
        rw [hv] at hdisp
        injection hdisp with ha hp hq
        exact ⟨ha.symm, by rw [← hp]⟩
  · intro out page
    cases out with
    | thrown => rfl
    | ok b =>
      cases hb : b.answer with
      | none => simp [handleAskQuestionFinish, hb]
      | some a => simp [handleAskQuestionFinish, hb, apply_ite]

/-- Witness for `busyFlag_discipline` at concrete inputs, discharging each
hypothesis. -/
theorem busyFlag_discipline_witness :
    handleGenerateImageStart "make a banner" app0
        = some ({ app0 with isLoading := true }, "make a banner")
    ∧ handleGenerateSlogansStart "summer sale" app0
        = some ({ app0 with isLoading := true }, "summer sale")
    ∧ (app0 = app0 ∧ ({ qaPage0 with isProcessing := true } : QAPageState).isProcessing = true)
    ∧ (app0 = app0 ∧
        ({ qaPageWithSession with isQuerying := true } : QAPageState).isQuerying = true) :=
  ⟨busyFlag_discipline.2.2.1 "make a banner" app0 rfl,
   busyFlag_discipline.2.2.2.2.1 "summer sale" app0 rfl,
   busyFlag_discipline.2.2.2.2.2.2.1 app0 app0 qaPage0
     { qaPage0 with isProcessing := true } qaPage0.youtubeUrl rfl,
   busyFlag_discipline.2.2.2.2.2.2.2.2.1 app0 app0 qaPageWithSession
     { qaPageWithSession with isQuerying := true } qaPageWithSession.question rfl⟩

/-! ## Claim C5 -/

/-- Claim C5, counterexample.  The code's regex makes the scheme optional:
the string `"youtube.com/watch?v=abc123"` lacks the `http`/`https` scheme —
so it matches neither recognized shape of the claim — yet the controller
dispatches it to the video-ingestion operation. -/
theorem schemelessUrl_dispatch_counterexample :
    handleProcessVideoStart app0 qaPageSchemeless
      = QAProcessStart.dispatch app0 { qaPageSchemeless with isProcessing := true }
          qaPageSchemeless.youtubeUrl
    ∧ specVideoLinkShape qaPageSchemeless.youtubeUrl = false :=
  ⟨rfl, rfl⟩

/-- Claim C5, amended: a string is dispatched to the video-ingestion
operation iff it is not blank and matches
`(https?://)?(www.)?(youtube.com/watch?v=|youtu.be/)` followed by at least
one word/hyphen character (with the rest of the string unconstrained): the
scheme may be absent, and strings failing this shape are rejected before
dispatch with no network call. -/
theorem videoUrl_dispatch_characterization (app : AppState) (page : QAPageState) :
    handleProcessVideoStart app page
        = QAProcessStart.dispatch app { page with isProcessing := true } page.youtubeUrl
      ↔ trimEmpty page.youtubeUrl = false ∧ codeVideoLinkShape page.youtubeUrl := by
  unfold handleProcessVideoStart
  by_cases h1 : trimEmpty page.youtubeUrl
  · rw [if_pos h1]
    simp [h1]
  · rw [if_neg h1, Bool.not_eq_true] at *
    by_cases h2 : youtubeRegexTest page.youtubeUrl
    · rw [if_pos h2]
      simp [h1, (youtubeRegexTest_iff _).mp h2]
    · rw [if_neg h2, Bool.not_eq_true] at *
      constructor
      · intro hdisp; cases hdisp
      · rintro ⟨-, hs⟩
        have ht := (youtubeRegexTest_iff page.youtubeUrl).mpr hs
        rw [ht] at h2
        cases h2

/-! ## Claim C6 -/

/-- Claim C6 (confirmed): a video query issued with no `VideoSession`
(`videoInfo = none`) is blocked locally — for a non-blank question the
failure is exactly the missing-precondition branch ("Please process a
video first") — and the `dispatch` outcome, the only one that performs a
network call, can only arise when a session is present. -/
theorem videoQuery_requires_session (app : AppState) (page : QAPageState) :
    (page.videoInfo = none → trimEmpty page.question = false →
        handleAskQuestionStart app page = QAQueryStart.blockedMissingPrecondition) ∧
    (∀ (a : AppState) (p : QAPageState) (q : String),
        handleAskQuestionStart app page = QAQueryStart.dispatch a p q →
          page.videoInfo.isSome = true) := by
  constructor
  · intro hnone hq
    unfold handleAskQuestionStart
    rw [if_neg (by simp [hq]), hnone]
  · intro a p q hdisp
    unfold handleAskQuestionStart at hdisp
    by_cases h1 : trimEmpty page.question
    · rw [if_pos h1] at hdisp; cases hdisp
    · rw [if_neg h1] at hdisp
      cases hv : page.videoInfo with
      | none => rw [hv] at hdisp; cases hdisp
      | some vi => simp [hv]

/-- Witness for `videoQuery_requires_session` at a concrete sessionless
page with a non-blank question. -/
theorem videoQuery_requires_session_witness :
    handleAskQuestionStart app0 qaPageNoSession = QAQueryStart.blockedMissingPrecondition :=
  (videoQuery_requires_session app0 qaPageNoSession).1 rfl rfl

/-! ## Claim C7 -/

/-- Claim C7 (confirmed): a forecast run that does not end in a committed
success — a resolved response failing the
`status === "success" && results` test, or a rejected call (transport
fault / thrown error) — leaves the Shared Result Store exactly as it was:
the previously stored `ForecastResult`, or its absence, is what readers
observe afterwards.  (Writes are whole-value replacements, so no partial
write is expressible at all.) -/
theorem failedForecast_preserves_store (out : AxiosOutcome ForecastBody) (app : AppState)
    (hfail : forecastSuccessResults out = none) :
    (handleRunForecastFinish out app).forecastResults = app.forecastResults := by
  rw [finish_store, hfail]

/-- Witness for `failedForecast_preserves_store`: a backend-declared
failure body leaves a previously stored result in place. -/
theorem failedForecast_preserves_store_witness :
    (handleRunForecastFinish (AxiosOutcome.ok { status := some "error", results := none })
        { forecastResults := some sampleResults, isLoading := true }).forecastResults
      = some sampleResults :=
  failedForecast_preserves_store
    (AxiosOutcome.ok { status := some "error", results := none })
    { forecastResults := some sampleResults, isLoading := true } rfl

/-! ## Claim C8 -/

/-- String concatenation concatenates the underlying character lists. -/
theorem strData_append (a b : String) : (a ++ b).data = a.data ++ b.data := rfl

/-- Claim C8 (confirmed): the deterministic formatting of a stored
`ForecastResult` into the Image controller's prompt and the Slogan
controller's context contains the exact `recommended_campaign_type`,
`recommended_offer` and `campaign_details.target` values byte-for-byte as
contiguous segments. -/
theorem forecast_formatting_round_trip (fr : ForecastResults) :
    (strContainsSeg (generatePromptFromForecast fr) fr.recommended_campaign_type ∧
     strContainsSeg (generatePromptFromForecast fr) fr.recommended_offer ∧
     strContainsSeg (generatePromptFromForecast fr) fr.campaign_details.target) ∧
    (strContainsSeg (generateContextFromForecast fr) fr.recommended_campaign_type ∧
     strContainsSeg (generateContextFromForecast fr) fr.recommended_offer ∧
     strContainsSeg (generateContextFromForecast fr) fr.campaign_details.target) := by
  refine ⟨⟨⟨"Create a marketing image for a ".data,
      (" campaign with " ++ fr.recommended_offer ++ ". Target audience: " ++
        fr.campaign_details.target ++
        ". Professional, modern design with engaging visuals.").data, ?_⟩,
    ⟨("Create a marketing image for a " ++ fr.recommended_campaign_type ++
        " campaign with ").data,
      (". Target audience: " ++ fr.campaign_details.target ++
        ". Professional, modern design with engaging visuals.").data, ?_⟩,
    ⟨("Create a marketing image for a " ++ fr.recommended_campaign_type ++
        " campaign with " ++ fr.recommended_offer ++ ". Target audience: ").data,
      ". Professional, modern design with engaging visuals.".data, ?_⟩⟩,
    ⟨"Campaign Type: ".data,
      ("\nOffer: " ++ fr.recommended_offer ++ "\nTarget Audience: " ++
        fr.campaign_details.target ++ "\nDiscount: " ++
        ratToString fr.campaign_details.discount ++ "%\nBudget: $" ++
        ratToString fr.campaign_details.budget).data, ?_⟩,
    ⟨("Campaign Type: " ++ fr.recommended_campaign_type ++ "\nOffer: ").data,
      ("\nTarget Audience: " ++ fr.campaign_details.target ++ "\nDiscount: " ++
        ratToString fr.campaign_details.discount ++ "%\nBudget: $" ++
        ratToString fr.campaign_details.budget).data, ?_⟩,
    ⟨("Campaign Type: " ++ fr.recommended_campaign_type ++ "\nOffer: " ++
        fr.recommended_offer ++ "\nTarget Audience: ").data,
      ("\nDiscount: " ++ ratToString fr.campaign_details.discount ++ "%\nBudget: $" ++
        ratToString fr.campaign_details.budget).data, ?_⟩⟩ <;>
  simp [generatePromptFromForecast, generateContextFromForecast, strData_append,
    List.append_assoc]

/-! ## Claim C9 -/

/-- Claim C9, counterexample.  A file with extension `.exe` — not in the
`.csv` allowed-extension policy — arrives through the drag-and-drop path
and is accepted and handed to the caller: `handleDrop` feeds it to
`handleFileSelect`, which checks only the size, and no `UnsupportedType`
rejection exists anywhere in the widget. -/
theorem drop_unsupportedType_counterexample :
    handleDrop 10 [exeFile] = some (SelectOutcome.accepted exeFile)
    ∧ extOf exeFile.name = ".exe"
    ∧ (".exe" : String) ≠ ".csv" :=
  ⟨rfl, rfl, by decide⟩

/-- Claim C9, amended: files arriving through the drag-and-drop path
receive only the size check — any dropped file within the size limit is
passed to the caller regardless of its extension, because the widget
performs no extension validation on any path (the `accept` filter applies
only to the native file picker). -/
theorem drop_size_only_validation (maxSize : Nat) (f : CandidateFile)
    (rest : List CandidateFile) (hsize : f.size ≤ maxSize * 1024 * 1024) :
    handleDrop maxSize (f :: rest) = some (SelectOutcome.accepted f) := by
  have h : ¬ (f.size > maxSize * 1024 * 1024) := Nat.not_lt.mpr hsize
  simp [handleDrop, handleFileSelect, h]

/-- Witness for `drop_size_only_validation` at the concrete `.exe` file. -/
theorem drop_size_only_validation_witness :
    handleDrop 10 [exeFile] = some (SelectOutcome.accepted exeFile) :=
  drop_size_only_validation 10 exeFile [] (by decide)

/-! ## Claim C10 -/

/-- Claim C10 (confirmed): a failed ingestion attempt — a resolved response
without a `video_info` field, or a rejected call — leaves the previously
stored `VideoSession` (`videoInfo`) unchanged, and a subsequent non-blank
query against the post-failure page still dispatches (against the prior
session). -/
theorem failedIngestion_preserves_session (page : QAPageState)
    (out : AxiosOutcome ProcessBody) (hfail : ingestSuccess out = none) :
    (handleProcessVideoFinish out page).videoInfo = page.videoInfo ∧
    (∀ (app : AppState) (vi : VideoInfo), page.videoInfo = some vi →
        trimEmpty page.question = false →
        handleAskQuestionStart app (handleProcessVideoFinish out page)
          = QAQueryStart.dispatch app
              ({ handleProcessVideoFinish out page with isQuerying := true })
              page.question) := by
  have hvid : (handleProcessVideoFinish out page).videoInfo = page.videoInfo := by
    cases out with
    | thrown => rfl
    | ok b =>
      have hb : b.video_info = none := hfail
      simp [handleProcessVideoFinish, hb]
  have hfin : handleProcessVideoFinish out page = { page with isProcessing := false } := by
    cases out with
    | thrown => rfl
    | ok b =>
      have hb : b.video_info = none := hfail
      simp [handleProcessVideoFinish, hb]
  refine ⟨hvid, fun app vi hvi hques => ?_⟩
  rw [hfin]
  simp [handleAskQuestionStart, hques, hvi]

/-- Witness for `failedIngestion_preserves_session`: a transport fault
during re-ingestion keeps the prior session, and the pending question still
dispatches. -/
theorem failedIngestion_preserves_session_witness :
    (handleProcessVideoFinish AxiosOutcome.thrown qaPageWithSession).videoInfo
        = some sampleVideoInfo
    ∧ handleAskQuestionStart app0 (handleProcessVideoFinish AxiosOutcome.thrown qaPageWithSession)
        = QAQueryStart.dispatch app0
            ({ handleProcessVideoFinish AxiosOutcome.thrown qaPageWithSession with
                isQuerying := true })
            qaPageWithSession.question :=
  ⟨(failedIngestion_preserves_session qaPageWithSession AxiosOutcome.thrown rfl).1,
   (failedIngestion_preserves_session qaPageWithSession AxiosOutcome.thrown rfl).2
     app0 sampleVideoInfo rfl rfl⟩

end MarketingAI
